import Mathlib

/-!
Verification development for the LINE WORKS bot relay server
(`app/main.py`, `app/salesforce_client.py`).

The Python source is shallowly embedded: pure control flow becomes Lean
functions, the Redis cache store becomes explicit state values plus lists of
emitted cache operations, HTTP calls become outcome parameters, and the
cooperative `asyncio` scheduling relevant to the token-refresh locks becomes a
small-step interleaving relation over program counters placed at the `await`
suspension points of the source.  Machine times are modelled as `Int` seconds.
-/

namespace LWBot

/-! ## Platform token manager: `main.get_access_token` (main.py lines 161-269)

The Redis keys `lw_bot:access_token` and `lw_bot:expires_at` are modelled as
two optional fields.  `expires_at` is stored as a decimal string in Redis and
parsed with `float(...) if ... else 0`; we model the parsed value directly as
an `Int` (the `getD 0` mirrors the `else 0` default). -/

structure PCache where
  access_token : Option String
  expires_at : Option Int
  deriving DecidableEq, Repr

/-- Outcome of the platform refresh attempt in `get_access_token`: `none`
models every failure branch of lines 184-269 (unreadable private key, JWT
signing error, network error, non-2xx `raise_for_status`, response missing
`access_token`), all of which `return None` without touching Redis; `some r`
models a 2xx token response carrying `access_token` and `expires_in`
(defaulted to 3600 by the source when absent). -/
structure PRefreshSuccess where
  access_token : String
  expires_in : Int
  deriving DecidableEq, Repr

/-- One Redis operation issued by the platform token manager. -/
inductive PCacheOp
  | setToken (v : String)
  | setExpiresAt (v : Int)
  | expireToken (ttl : Int)
  | expireExpiresAt (ttl : Int)
  | delToken
  | delExpiresAt
  deriving DecidableEq, Repr

/-- Freshness test of main.py line 178:
`if access_token and current_time < (expires_at - 60)`. -/
def pCacheFresh (c : PCache) (now : Int) : Bool :=
  match c.access_token with
  | some _ => decide (now < c.expires_at.getD 0 - 60)
  | none => false

/-- `main.get_access_token` (main.py lines 161-269), sequentially: given the
cache contents, the current time and the outcome of the refresh attempt,
returns the token result, the new cache contents and the Redis operations
issued (lines 256-260 on success; none on the cached path or on failure). -/
def get_access_token (c : PCache) (now : Int) (refresh : Option PRefreshSuccess) :
    Option String × PCache × List PCacheOp :=
  if pCacheFresh c now then
    (c.access_token, c, [])
  else
    match refresh with
    | none => (none, c, [])
    | some r =>
      let expires_at := now + r.expires_in
      (some r.access_token,
       ⟨some r.access_token, some expires_at⟩,
       [PCacheOp.setToken r.access_token,
        PCacheOp.setExpiresAt expires_at,
        PCacheOp.expireToken (r.expires_in + 300),
        PCacheOp.expireExpiresAt (r.expires_in + 300)])

/-- The invalidation performed by `send_message_to_user` on a 401 (or 403 with
code `UNAUTHORIZED`) response (main.py lines 322-326): both Redis keys are
deleted. -/
def pInvalidate (_c : PCache) : PCache := ⟨none, none⟩

/-! ## Session sequence counter
(`salesforce_client.get_sequence_id` lines 666-694,
`update_sequence_id` lines 696-717, and the automatic sequence management of
`send_sync_message_to_agent` lines 848-856).

The claims about this counter presuppose an available cache store, so the
Redis value `sf_agent:seq:{session_id}` is modelled as an `Option Nat`
(the stored decimal string parsed by `int(...)`). -/

/-- `get_sequence_id`: the stored counter, defaulting to 1 when no record
exists. -/
def get_sequence_id (c : Option Nat) : Nat :=
  match c with
  | some n => n
  | none => 1

/-- `update_sequence_id`: overwrites the stored counter with the given
value. -/
def update_sequence_id (_c : Option Nat) (sequence_id : Nat) : Option Nat :=
  some sequence_id

/-- The sequence management inside `send_sync_message_to_agent` when no
explicit `sequence_id` is passed (lines 849-856): read the current counter,
persist `current + 1`, and use the value read for the outgoing message. -/
def sendSeqStep (c : Option Nat) : Nat × Option Nat :=
  let sequence_id := get_sequence_id c
  (sequence_id, update_sequence_id c (sequence_id + 1))

/-- `N` sequential sends for one session: the list of sequence ids used,
threading the counter state. -/
def seqRun : Nat → Option Nat → List Nat
  | 0, _ => []
  | n + 1, c =>
    let p := sendSeqStep c
    p.1 :: seqRun n p.2

/-! ## Backend (Salesforce) token manager
(`SalesforceClient._refresh_access_token` lines 141-199,
`_get_valid_access_token` lines 201-226, and the 401/403 invalidation inside
`_request` lines 298-306).

The in-process state is `self._access_token`, `self._instance_url` and
`self._token_expires_at`.  `_refresh_access_token` touches no Redis key; the
`writes` component of its embedding records the cache-store operations it
issues, which are none in every branch. -/

structure SfState where
  access_token : Option String
  instance_url : Option String
  token_expires_at : Int
  deriving DecidableEq, Repr

/-- Body of a 2xx response from the backend token endpoint, as read by lines
163-173: either field may be absent. -/
structure SfTokenBody where
  access_token : Option String
  instance_url : Option String
  deriving DecidableEq, Repr

/-- Outcome of the client-credentials POST of lines 156-161: a 2xx response
with a parsed JSON body, or any of the error branches (non-2xx
`HTTPStatusError`, `RequestError`, unexpected exception), which all fall
through to the clearing code of lines 195-199. -/
inductive SfRefreshOutcome
  | http2xx (body : SfTokenBody)
  | failure
  deriving DecidableEq, Repr

/-- One Redis operation issued by the Salesforce session/credential layer.
`seq` is keyed by session id, `session_key`/`session_id` by
`(agent_id, user_id)`. -/
inductive SfCacheOp
  | setSessionKey (agent user v : String)
  | setSessionId (agent user v : String)
  | setSeq (sid : String) (v : Nat)
  | expireKey (ttl : Nat)
  | delSeq (sid : String)
  | delSessionKey (agent user : String)
  | delSessionId (agent user : String)
  deriving DecidableEq, Repr

/-- `SalesforceClient._refresh_access_token` (lines 141-199): returns the new
in-process state, the success flag, and the list of cache-store operations
issued — which is empty in every branch, the function only mutating `self`.
`token_cache_padding` defaults to 300 in `__init__` (line 67). -/
def sf_refresh_access_token (_st : SfState) (now : Int) (padding : Int)
    (outcome : SfRefreshOutcome) : SfState × Bool × List SfCacheOp :=
  match outcome with
  | SfRefreshOutcome.http2xx body =>
    match body.access_token, body.instance_url with
    | some tok, some inst => (⟨some tok, some inst, now + padding⟩, true, [])
    | some _, none => (⟨none, none, 0⟩, false, [])
    | none, some _ => (⟨none, none, 0⟩, false, [])
    | none, none => (⟨none, none, 0⟩, false, [])
  | SfRefreshOutcome.failure => (⟨none, none, 0⟩, false, [])

/-- Freshness test of lines 207 and 215:
`if self._access_token and current_time < self._token_expires_at`. -/
def sfTokenFresh (st : SfState) (now : Int) : Bool :=
  match st.access_token with
  | some _ => decide (now < st.token_expires_at)
  | none => false

/-- `SalesforceClient._get_valid_access_token` (lines 201-226), sequentially:
check the cache, then under `self._token_lock` re-check it and refresh if
still stale.  In this single-task embedding the re-check sees the same state;
the interleaved semantics of the lock is `BStep` below. -/
def sf_get_valid_access_token (st : SfState) (now : Int) (padding : Int)
    (outcome : SfRefreshOutcome) : Option String × SfState :=
  if sfTokenFresh st now then
    (st.access_token, st)
  else
    if sfTokenFresh st now then
      (st.access_token, st)
    else
      let r := sf_refresh_access_token st now padding outcome
      if r.2.1 then (r.1.access_token, r.1) else (none, r.1)

/-- The invalidation performed inside `_request` on a 401/403 response
(lines 302-306): token, expiry and instance URL are all cleared under the
token lock. -/
def sfInvalidate (_st : SfState) : SfState := ⟨none, none, 0⟩

/-! ## `SalesforceClient._request` retry loop (lines 228-364)

The loop runs `max_retries + 1` attempts (`max_retries` defaults to 2, line
68).  The `Authorization` header is built once at lines 267-271 from the
token obtained before the loop and is never rebuilt inside the loop, so every
attempt carries the same bearer token; a 401/403 merely clears
`self._access_token` for future `_request` calls. -/

/-- Server behaviour on one attempt: a 2xx response, an `HTTPStatusError`
with the given status code, a network-level `RequestError`, or an unexpected
exception. -/
inductive AttemptOutcome
  | ok (code : Nat)
  | httpErr (code : Nat)
  | netErr
  | unexpected
  deriving DecidableEq, Repr

/-- Result of the embedded `_request` loop: the bearer token sent on each
attempt (in order), the final status code surfaced (the successful code, or
the last `HTTPStatusError`'s code via `last_exception.response`, or `none`
when no HTTP response is available), and the in-process token after the loop
(`none` iff some attempt hit a 401/403 and cleared it). -/
structure ReqTrace where
  sentTokens : List String
  result : Option Nat
  selfToken : Option String
  deriving DecidableEq, Repr

/-- One pass of the `for attempt in range(self.max_retries + 1)` loop of
lines 275-357, recursing on the remaining-attempts fuel.  `selfTok` threads
`self._access_token`. -/
def sfRequestGo (headerToken : String) (maxRetries : Nat) (resp : Nat → AttemptOutcome) :
    Nat → Nat → Option String → Option Nat → ReqTrace
  | _, 0, selfTok, lastHttp => ⟨[], lastHttp, selfTok⟩
  | attempt, fuel + 1, selfTok, _ =>
    match resp attempt with
    | AttemptOutcome.ok code => ⟨[headerToken], some code, selfTok⟩
    | AttemptOutcome.httpErr code =>
      if code = 401 ∨ code = 403 then
        if attempt < maxRetries then
          let t := sfRequestGo headerToken maxRetries resp (attempt + 1) fuel none (some code)
          ⟨headerToken :: t.sentTokens, t.result, t.selfToken⟩
        else ⟨[headerToken], some code, none⟩
      else
        if attempt < maxRetries then
          let t := sfRequestGo headerToken maxRetries resp (attempt + 1) fuel selfTok (some code)
          ⟨headerToken :: t.sentTokens, t.result, t.selfToken⟩
        else ⟨[headerToken], some code, selfTok⟩
    | AttemptOutcome.netErr =>
      if attempt < maxRetries then
        let t := sfRequestGo headerToken maxRetries resp (attempt + 1) fuel selfTok none
        ⟨headerToken :: t.sentTokens, t.result, t.selfToken⟩
      else ⟨[headerToken], none, selfTok⟩
    | AttemptOutcome.unexpected => ⟨[headerToken], none, selfTok⟩

/-- The `_request` retry loop (lines 275-364) given the token placed in the
headers before the loop and the server's behaviour per attempt. -/
def sfRequestLoop (headerToken : String) (maxRetries : Nat)
    (resp : Nat → AttemptOutcome) : ReqTrace :=
  sfRequestGo headerToken maxRetries resp 0 (maxRetries + 1) (some headerToken) none

/-! ## Session cache
(`get_cached_session` lines 552-590, `cache_session` lines 592-629,
`delete_cached_session` lines 631-664, `start_agent_session` lines 719-829,
`end_agent_session` lines 904-946).

The three Redis records for one `(agent_id, user_id)` pair are
`sf_agent:session_key:{agent}:{user}`, `sf_agent:session_id:{agent}:{user}`
and `sf_agent:seq:{session_id}`; a `SessCache` holds their values. -/

structure SessCache where
  session_key : Option String
  session_id : Option String
  seq : Option Nat
  deriving DecidableEq, Repr

/-- `get_cached_session` (lines 552-590): both records must be present (and
non-empty; we model absent-or-empty as `none`) for a hit; without a Redis
client the result is `none`. -/
def get_cached_session (hasRedis : Bool) (c : SessCache) :
    Option (String × String) :=
  if hasRedis then
    match c.session_key, c.session_id with
    | some k, some i => some (k, i)
    | some _, none => none
    | none, some _ => none
    | none, none => none
  else none

/-- `cache_session` (lines 592-629): stores the session key and id with the
session TTL and initializes the sequence counter to 1.  Returns the new cache
contents and the operations issued. -/
def cache_session (hasRedis : Bool) (c : SessCache) (agent user k sid : String)
    (sessionTtl : Nat) : SessCache × List SfCacheOp :=
  if hasRedis then
    (⟨some k, some sid, some 1⟩,
     [SfCacheOp.setSessionKey agent user k,
      SfCacheOp.setSessionId agent user sid,
      SfCacheOp.expireKey sessionTtl,
      SfCacheOp.expireKey sessionTtl,
      SfCacheOp.setSeq sid 1,
      SfCacheOp.expireKey sessionTtl])
  else (c, [])

/-- `delete_cached_session` (lines 631-664): deletes the sequence record when
a session id is supplied, then the session-key and session-id records.
Returns the new cache contents and the delete operations issued. -/
def delete_cached_session (hasRedis : Bool) (c : SessCache) (agent user : String)
    (session_id : Option String) : SessCache × List SfCacheOp :=
  if hasRedis then
    match session_id with
    | some sid =>
      (⟨none, none, none⟩,
       [SfCacheOp.delSeq sid,
        SfCacheOp.delSessionKey agent user,
        SfCacheOp.delSessionId agent user])
    | none =>
      (⟨none, none, c.seq⟩,
       [SfCacheOp.delSessionKey agent user,
        SfCacheOp.delSessionId agent user])
  else (c, [])

/-- Outcome of the backend "start session" POST of lines 789-829: no usable
response / non-200, or a 200 whose JSON carries an optional `sessionId`. -/
inductive StartOutcome
  | noSuccess
  | ok200 (sessionId : Option String)
  deriving DecidableEq, Repr

/-- Result of `start_agent_session`: the returned session id (`none` models
the function returning `None`), the number of backend "start session" calls
issued, and the cache contents afterwards. -/
structure StartResult where
  result : Option String
  startCalls : Nat
  cache : SessCache
  deriving DecidableEq, Repr

/-- `start_agent_session` (lines 719-829).  `instance_url` is the value of
`self._instance_url` after the preliminary token fetch of lines 742-749 (the
function returns `None` issuing no start call when it is still absent);
`sessionKeyGen` is the `uuid.uuid4()` correlation key generated on a cache
miss (line 773); `backend` is the backend's response to a start call. -/
def start_agent_session (instance_url : Option String) (use_cached_session hasRedis : Bool)
    (c : SessCache) (agent user sessionKeyGen : String) (sessionTtl : Nat)
    (backend : StartOutcome) : StartResult :=
  match instance_url with
  | none => ⟨none, 0, c⟩
  | some _ =>
    match (if use_cached_session && hasRedis then get_cached_session hasRedis c else none) with
    | some ki => ⟨some ki.2, 0, c⟩
    | none =>
      match backend with
      | StartOutcome.noSuccess => ⟨none, 1, c⟩
      | StartOutcome.ok200 none => ⟨none, 1, c⟩
      | StartOutcome.ok200 (some sid) =>
        let cw := cache_session hasRedis c agent user sessionKeyGen sid sessionTtl
        ⟨some sid, 1, cw.1⟩

/-- `end_agent_session` (lines 904-946) given the outcome of the backend
DELETE call (`none` models no response at all): returns the success flag, the
cache contents afterwards, and the delete operations issued.  The local cache
cleanup of lines 932-934 runs only inside the 200/204 success branch and only
when a Redis client and both ids are present. -/
def end_agent_session (c : SessCache) (session_id : String)
    (agent_id user_id : Option String) (hasRedis : Bool)
    (respStatus : Option Nat) : Bool × SessCache × List SfCacheOp :=
  match respStatus with
  | some code =>
    if code = 204 ∨ code = 200 then
      match agent_id, user_id with
      | some a, some u =>
        if hasRedis then
          let dw := delete_cached_session hasRedis c a u (some session_id)
          (true, dw.1, dw.2)
        else (true, c, [])
      | some _, none => (true, c, [])
      | none, some _ => (true, c, [])
      | none, none => (true, c, [])
    else (false, c, [])
  | none => (false, c, [])

/-! ## Webhook callback (`main.callback` lines 403-605 and
`main.validate_request` lines 130-158). -/

/-- `SIGNATURE_VERIFICATION_MODE` (main.py line 52). -/
inductive SigMode
  | strict
  | warn
  | skip
  deriving DecidableEq, Repr, Fintype

/-- `validate_request` (lines 130-158): `skip` mode always accepts; a missing
`X-Works-Signature` header or an unconfigured bot secret is rejected;
otherwise the result is `hmac.compare_digest` of the computed base64 HMAC
against the header, modelled by `hmacMatches`. -/
def validate_request (mode : SigMode) (signaturePresent : Bool)
    (botSecretSet : Bool) (hmacMatches : Bool) : Bool :=
  if mode = SigMode.skip then true
  else if !signaturePresent then false
  else if !botSecretSet then false
  else hmacMatches

/-- How reading/parsing the request body at lines 445-460 went. -/
inductive BodyParse
  | ok
  | jsonError
  | otherError
  deriving DecidableEq, Repr, Fintype

/-- Observable outcome of one `callback` invocation: the HTTP status
returned, whether the body-parsing step was reached and whether the
event-processing block was entered. -/
structure CallbackResult where
  statusCode : Nat
  parseReached : Bool
  processingReached : Bool
  deriving DecidableEq, Repr

/-- `main.callback` (lines 403-605) at the granularity of the claims: the
signature gate (lines 420-440: strict mode rejects with 401, warn mode
acknowledges with 200 and returns before the body is parsed), the body parse
(lines 445-460: `json.JSONDecodeError` yields 400, any other exception 500),
and the event-processing block (lines 463-599) whose exceptions are caught so
that the final line 603 returns 200 regardless of `processingRaises`. -/
def callback (mode : SigMode) (signaturePresent botSecretSet hmacMatches : Bool)
    (parse : BodyParse) (processingRaises : Bool) : CallbackResult :=
  if !validate_request mode signaturePresent botSecretSet hmacMatches then
    if mode = SigMode.strict then ⟨401, false, false⟩
    else ⟨200, false, false⟩
  else
    match parse with
    | BodyParse.jsonError => ⟨400, true, false⟩
    | BodyParse.otherError => ⟨500, true, false⟩
    | BodyParse.ok =>
      let _ := processingRaises
      ⟨200, true, true⟩

/-- Python's substring containment `needle in haystack` on character
sequences: some suffix of the haystack starts with the needle. -/
def containsSeq (needle : List Char) : List Char → Bool
  | [] => needle.isEmpty
  | c :: rest => needle.isPrefixOf (c :: rest) || containsSeq needle rest

/-- Termination-phrase test of main.py line 576:
`"終了" in received_text or "さようなら" in received_text`. -/
def termPhrase (received_text : List Char) : Bool :=
  containsSeq "終了".toList received_text || containsSeq "さようなら".toList received_text

/-- The tail of the message branch of `callback` (lines 560-581):
`send_response` is the value returned by `send_message_to_user` (`none` when
that helper returned `None`); `end_agent_session` is invoked only inside the
`else` branch taken when `send_response` is falsy, and only when the received
text contains a termination phrase.  Returns whether the session-end call is
made. -/
def sessionEndInvoked (send_response : Option Nat) (received_text : List Char) : Bool :=
  match send_response with
  | some _ => false
  | none => termPhrase received_text

/-! ## Interleaved semantics of the two token-refresh paths

`asyncio` schedules the webhook tasks cooperatively: control can change hands
at every `await`.  We model two concurrent callers of each token getter as a
transition system whose program counters sit at the suspension points that
matter for the single-flight property: the cache check, the in-flight network
refresh (between issuing the HTTP request and storing its result), and
completion.  A task is "in flight" exactly while its counter is at
`refreshing`.

`main.get_access_token` (lines 161-269) takes no lock: after the Redis reads
of lines 173-175 find a stale cache, the task proceeds to the HTTP POST of
line 238 unconditionally.  `SalesforceClient._get_valid_access_token` (lines
201-226) acquires `self._token_lock` and re-checks the cache before
refreshing. -/

/-- Program counter of one platform `get_access_token` caller:
`check` = about to evaluate the freshness test of line 178 on the cache just
read; `refreshing` = the POST of line 238 is in flight; `done` = returned. -/
inductive PPc
  | check
  | refreshing
  | done
  deriving DecidableEq, Repr, Fintype

/-- Joint state of two concurrent platform callers: whether the shared cache
currently holds a fresh token, and both program counters. -/
structure PConc where
  fresh : Bool
  pc0 : PPc
  pc1 : PPc
  deriving DecidableEq, Repr, Fintype

/-- Local transitions of one platform caller, as successor
`(fresh, pc)` pairs: a fresh cache is returned directly; a stale cache leads
straight into the network refresh (no lock, no re-check); an in-flight
refresh completes either successfully (storing the token, lines 256-260) or
with a failure that leaves the cache unset (`return None` branches). -/
def pLocalStep (fresh : Bool) : PPc → List (Bool × PPc)
  | PPc.check => if fresh then [(fresh, PPc.done)] else [(fresh, PPc.refreshing)]
  | PPc.refreshing => [(true, PPc.done), (fresh, PPc.done)]
  | PPc.done => []

/-- All interleaving successors of a two-caller platform state. -/
def pSuccessors (s : PConc) : List PConc :=
  (pLocalStep s.fresh s.pc0).map (fun p => ⟨p.1, p.2, s.pc1⟩) ++
  (pLocalStep s.fresh s.pc1).map (fun p => ⟨p.1, s.pc0, p.2⟩)

/-- One scheduler step between two-caller platform states. -/
def PStep (s s' : PConc) : Prop := s' ∈ pSuccessors s

/-- Both platform callers start at the cache check with no fresh token
cached. -/
def pInit : PConc := ⟨false, PPc.check, PPc.check⟩

/-- The platform state in which both callers have a network refresh in
flight simultaneously. -/
def pBoth : PConc := ⟨false, PPc.refreshing, PPc.refreshing⟩

/-- Program counter of one backend `_get_valid_access_token` caller:
`check` = the unlocked freshness test of line 207; `waitLock` = suspended at
`async with self._token_lock` (line 212); `recheck` = the locked re-check of
line 215; `refreshing` = the token POST inside `_refresh_access_token` is in
flight; `done` = returned (lock released). -/
inductive BPc
  | check
  | waitLock
  | recheck
  | refreshing
  | done
  deriving DecidableEq, Repr, Fintype

/-- Joint state of two concurrent backend callers: shared cache freshness,
the holder of `self._token_lock`, and both program counters. -/
structure BConc where
  fresh : Bool
  lockOwner : Option (Fin 2)
  pc0 : BPc
  pc1 : BPc
  deriving DecidableEq, Repr, Fintype

/-- Local transitions of backend caller `i`, as successor
`(fresh, lockOwner, pc)` triples: the lock can be acquired only when free;
the locked re-check either returns under the released lock or proceeds to the
refresh while still holding it; the refresh completes successfully (caching
the token) or fails (clearing it), releasing the lock either way. -/
def bLocalStep (i : Fin 2) (fresh : Bool) (lockOwner : Option (Fin 2)) :
    BPc → List (Bool × Option (Fin 2) × BPc)
  | BPc.check =>
    if fresh then [(fresh, lockOwner, BPc.done)] else [(fresh, lockOwner, BPc.waitLock)]
  | BPc.waitLock =>
    if lockOwner = none then [(fresh, some i, BPc.recheck)] else []
  | BPc.recheck =>
    if fresh then [(fresh, none, BPc.done)] else [(fresh, lockOwner, BPc.refreshing)]
  | BPc.refreshing => [(true, none, BPc.done), (false, none, BPc.done)]
  | BPc.done => []

/-- All interleaving successors of a two-caller backend state. -/
def bSuccessors (s : BConc) : List BConc :=
  (bLocalStep 0 s.fresh s.lockOwner s.pc0).map (fun p => ⟨p.1, p.2.1, p.2.2, s.pc1⟩) ++
  (bLocalStep 1 s.fresh s.lockOwner s.pc1).map (fun p => ⟨p.1, p.2.1, s.pc0, p.2.2⟩)

/-- One scheduler step between two-caller backend states. -/
def BStep (s s' : BConc) : Prop := s' ∈ bSuccessors s

/-- Both backend callers start at the cache check, lock free, no fresh token
cached. -/
def bInit : BConc := ⟨false, none, BPc.check, BPc.check⟩

/-- Lock-ownership invariant of the backend model: a task at the locked
re-check or with a refresh in flight is the lock holder. -/
def bInv (s : BConc) : Bool :=
  (decide ((s.pc0 = BPc.recheck ∨ s.pc0 = BPc.refreshing) → s.lockOwner = some 0)) &&
  (decide ((s.pc1 = BPc.recheck ∨ s.pc1 = BPc.refreshing) → s.lockOwner = some 1))

instance (s s' : PConc) : Decidable (PStep s s') := by
  unfold PStep
  infer_instance

instance (s s' : BConc) : Decidable (BStep s s') := by
  unfold BStep
  infer_instance

/-- An intermediate platform state: caller 0 has its refresh in flight while
caller 1 still sits at the cache check. -/
def pMid : PConc := ⟨false, PPc.refreshing, PPc.check⟩

/-- A backend state with caller 0 holding the lock and refreshing. -/
def bWit : BConc := ⟨false, some 0, BPc.refreshing, BPc.check⟩

/-- Token delivered by a backend refresh outcome: present exactly when the
response was 2xx with both `access_token` and `instance_url`. -/
def sfRefreshTokenOf : SfRefreshOutcome → Option String
  | SfRefreshOutcome.http2xx body =>
    match body.access_token, body.instance_url with
    | some tok, some _ => some tok
    | some _, none => none
    | none, some _ => none
    | none, none => none
  | SfRefreshOutcome.failure => none

/-! ## Helper lemmas -/

set_option maxRecDepth 10000 in
/-- The lock-ownership invariant is preserved by every scheduler step of the
backend model (checked over the whole finite state space). -/
theorem bInv_preserved : ∀ s : BConc, bInv s = true → ∀ s' ∈ bSuccessors s, bInv s' = true := by
  decide

/-- Every state the backend model reaches from `bInit` satisfies the
lock-ownership invariant. -/
theorem bReach_inv (s : BConc) (h : Relation.ReflTransGen BStep bInit s) :
    bInv s = true := by
  induction h with
  | refl => decide
  | tail _ hstep ih => exact bInv_preserved _ ih _ hstep

/-- Sequential sends starting from a stored counter `v` use
`v, v + 1, v + 2, …`. -/
theorem seqRun_some (n : Nat) : ∀ v, seqRun n (some v) = (List.range n).map (v + ·) := by
  induction n with
  | zero => intro v; rfl
  | succ m ih =>
    intro v
    have h1 : seqRun (m + 1) (some v) = v :: seqRun m (some (v + 1)) := rfl
    rw [h1, ih, List.range_succ_eq_map, List.map_cons, List.map_map]
    refine congrArg₂ _ (by omega) (List.map_congr_left ?_)
    intro a _
    show v + 1 + a = v + (a + 1)
    omega

/-- With no stored counter the run behaves as if the counter were 1. -/
theorem seqRun_none (n : Nat) : seqRun n none = seqRun n (some 1) := by
  cases n with
  | zero => rfl
  | succ m => rfl

/-! ## Claims -/

/-- Claim C1, counterexample: in the two-caller interleaved model of
`main.get_access_token` (the platform credential key), a state in which both
callers have a network refresh call in flight simultaneously is reachable
from the initial state in which both find the cached token missing — the
platform refresh has no in-process mutual-exclusion lock, so the
at-most-one-refresh-in-flight property fails for the platform key. -/
theorem C1_counterexample :
    Relation.ReflTransGen PStep pInit pBoth ∧
    pInit.fresh = false ∧ pBoth.pc0 = PPc.refreshing ∧ pBoth.pc1 = PPc.refreshing :=
  ⟨Relation.ReflTransGen.tail
      (Relation.ReflTransGen.single (by decide : PStep pInit pMid))
      (by decide : PStep pMid pBoth),
   rfl, rfl, rfl⟩

/-- Claim C1, amended: the backend token refresh
(`SalesforceClient._get_valid_access_token`) is guarded by the in-process
lock `self._token_lock` with a cache re-check after acquisition, so in every
reachable state of the two-caller interleaved model at most one backend
refresh call is in flight; the platform `get_access_token` gives no such
guarantee (see the counterexample). -/
theorem C1_backend_single_flight (s : BConc)
    (h : Relation.ReflTransGen BStep bInit s) :
    ¬(s.pc0 = BPc.refreshing ∧ s.pc1 = BPc.refreshing) := by
  intro hb
  have hi := bReach_inv s h
  simp only [bInv, Bool.and_eq_true, decide_eq_true_eq] at hi
  have e0 := hi.1 (Or.inr hb.1)
  have e1 := hi.2 (Or.inr hb.2)
  rw [e0] at e1
  exact absurd e1 (by decide)

/-- Claim C1, witness: the single-flight theorem applied to a concrete
reachable backend state in which caller 0 holds the lock and is
refreshing. -/
theorem C1_backend_single_flight_witness :
    Relation.ReflTransGen BStep bInit bWit ∧
    ¬(bWit.pc0 = BPc.refreshing ∧ bWit.pc1 = BPc.refreshing) :=
  have hchain : Relation.ReflTransGen BStep bInit bWit :=
    Relation.ReflTransGen.tail
      (Relation.ReflTransGen.tail
        (Relation.ReflTransGen.single
          (by decide : BStep bInit ⟨false, none, BPc.waitLock, BPc.check⟩))
        (by decide :
          BStep ⟨false, none, BPc.waitLock, BPc.check⟩ ⟨false, some 0, BPc.recheck, BPc.check⟩))
      (by decide : BStep ⟨false, some 0, BPc.recheck, BPc.check⟩ bWit)
  ⟨hchain, C1_backend_single_flight bWit hchain⟩

/-- Claim C2, counterexample: a successful backend (client-credentials)
refresh issues zero Cache Store operations — `_refresh_access_token` updates
only `self._access_token`, `self._instance_url` and `self._token_expires_at`,
so neither the token nor the instance endpoint is persisted to the Cache
Store, contrary to the claim. -/
theorem C2_counterexample :
    (sf_refresh_access_token ⟨none, none, 0⟩ 1000 300
        (SfRefreshOutcome.http2xx ⟨some "tok123", some "https://inst.example"⟩)).2.1 = true ∧
    (sf_refresh_access_token ⟨none, none, 0⟩ 1000 300
        (SfRefreshOutcome.http2xx ⟨some "tok123", some "https://inst.example"⟩)).2.2 = [] :=
  ⟨rfl, rfl⟩

/-- Claim C2, amended: every successful platform refresh persists the token
and expiry to the Cache Store with a TTL of `expires_in + 300` seconds
(strictly longer than the token's own expiry) and updates the cached record;
the backend refresh updates only in-process state (token, instance endpoint,
expiry `now + padding`) and issues no Cache Store operation in any branch. -/
theorem C2_refresh_persistence :
    (∀ (c : PCache) (now : Int) (r : PRefreshSuccess),
        pCacheFresh c now = false →
        get_access_token c now (some r) =
          (some r.access_token, ⟨some r.access_token, some (now + r.expires_in)⟩,
            [PCacheOp.setToken r.access_token,
             PCacheOp.setExpiresAt (now + r.expires_in),
             PCacheOp.expireToken (r.expires_in + 300),
             PCacheOp.expireExpiresAt (r.expires_in + 300)]) ∧
        r.expires_in < r.expires_in + 300) ∧
    (∀ (st : SfState) (now padding : Int) (tok inst : String),
        sf_refresh_access_token st now padding
            (SfRefreshOutcome.http2xx ⟨some tok, some inst⟩) =
          (⟨some tok, some inst, now + padding⟩, true, [])) ∧
    (∀ (st : SfState) (now padding : Int) (o : SfRefreshOutcome),
        (sf_refresh_access_token st now padding o).2.2 = []) := by
  refine ⟨?_, ?_, ?_⟩
  · intro c now r hfresh
    refine ⟨?_, by omega⟩
    simp only [get_access_token, hfresh]
    rfl
  · intro st now padding tok inst
    rfl
  · intro st now padding o
    cases o with
    | http2xx body =>
      rcases body with ⟨a, i⟩
      cases a <;> cases i <;> rfl
    | failure => rfl

/-- Claim C2, witness: the platform branch of the persistence theorem at a
concrete stale cache and refresh response. -/
theorem C2_refresh_persistence_witness :
    pCacheFresh ⟨none, none⟩ 50 = false ∧
    (get_access_token ⟨none, none⟩ 50 (some ⟨"tokA", 3600⟩) =
      (some "tokA", ⟨some "tokA", some (50 + 3600)⟩,
        [PCacheOp.setToken "tokA", PCacheOp.setExpiresAt (50 + 3600),
         PCacheOp.expireToken (3600 + 300), PCacheOp.expireExpiresAt (3600 + 300)]) ∧
      (3600 : Int) < 3600 + 300) :=
  ⟨by decide, C2_refresh_persistence.1 ⟨none, none⟩ 50 ⟨"tokA", 3600⟩ (by decide)⟩

/-- Claim C3, counterexample: when the backend terminate call fails (here a
500 response), `end_agent_session` reports failure and deletes none of the
three cached records — the local cache cleanup is blocked by the backend
failure, contrary to the claim. -/
theorem C3_counterexample :
    end_agent_session ⟨some "key1", some "S1", some 5⟩ "S1" (some "A1") (some "U1") true
        (some 500) =
      (false, ⟨some "key1", some "S1", some 5⟩, []) := by
  decide

/-- Claim C3, amended: `end_agent_session` deletes all three cached records
(sequence counter, session_key, session_id) and reports success exactly when
the backend terminate call returns 200 or 204 (given a Redis client and both
ids); when the backend call returns any other status, or no response at all,
it reports failure and deletes nothing. -/
theorem C3_end_session_cleanup (c : SessCache) (sid a u : String) (code : Nat) :
    ((code = 204 ∨ code = 200) →
      end_agent_session c sid (some a) (some u) true (some code) =
        (true, ⟨none, none, none⟩,
          [SfCacheOp.delSeq sid, SfCacheOp.delSessionKey a u, SfCacheOp.delSessionId a u])) ∧
    (¬(code = 204 ∨ code = 200) →
      end_agent_session c sid (some a) (some u) true (some code) = (false, c, [])) ∧
    end_agent_session c sid (some a) (some u) true none = (false, c, []) := by
  refine ⟨?_, ?_, rfl⟩
  · intro h
    simp only [end_agent_session]
    rw [if_pos h]
    rfl
  · intro h
    simp only [end_agent_session]
    rw [if_neg h]

/-- Claim C3, witness: the cleanup theorem at a concrete populated cache and
a 204 backend response. -/
theorem C3_end_session_cleanup_witness :
    ((204 = 204 ∨ 204 = 200) ∧
      end_agent_session ⟨some "k", some "S2", some 7⟩ "S2" (some "A") (some "U") true
          (some 204) =
        (true, ⟨none, none, none⟩,
          [SfCacheOp.delSeq "S2", SfCacheOp.delSessionKey "A" "U",
           SfCacheOp.delSessionId "A" "U"])) :=
  ⟨Or.inl rfl,
   (C3_end_session_cleanup ⟨some "k", some "S2", some 7⟩ "S2" "A" "U" 204).1 (Or.inl rfl)⟩

/-- Claim C4: with the default `max_retries = 2` and a server answering 401
to every attempt, the `_request` loop issues three attempts, every one
bearing the original Authorization token (the headers are built once before
the loop and never refreshed, although `self._access_token` is cleared), and
finally surfaces the 401 — not one retry with a freshly refreshed token as
the claim (and the code's own comment at lines 313-314) describes. -/
theorem C4_stale_token_retry_eval :
    sfRequestLoop "tokenA" 2 (fun _ => AttemptOutcome.httpErr 401) =
      ⟨["tokenA", "tokenA", "tokenA"], some 401, none⟩ :=
  rfl

/-- Claim C5: the session-end call of main.py lines 573-581 sits inside the
`else` branch taken only when `send_message_to_user` returned `None`, so for
a message containing the termination phrase 「終了」 whose delivery succeeded
(a response came back) `end_agent_session` is not invoked, while it is
invoked when delivery failed definitively — contradicting the claim (and
spec §9 records this gating as likely unintended). -/
theorem C5_end_session_delivery_gate :
    sessionEndInvoked (some 200) "終了".toList = false ∧
    sessionEndInvoked none "終了".toList = true := by
  constructor
  · rfl
  · decide

/-- Claim C6, counterexample: a request with a valid signature whose body is
not valid JSON is answered with 400, a non-success status not caused by the
signature outcome — contradicting the claim that only signature failures
under strict mode produce a rejection. -/
theorem C6_counterexample :
    validate_request SigMode.strict true true true = true ∧
    callback SigMode.strict true true true BodyParse.jsonError false = ⟨400, true, false⟩ ∧
    (400 : Nat) ≠ 200 := by
  refine ⟨rfl, rfl, by decide⟩

/-- Claim C6, amended: the handler returns 200 whenever the signature gate
passes and the body parses as JSON, regardless of errors during event
processing; it returns 401 for a signature failure under strict mode and 200
for one under warn mode; any non-success response arises only from a strict
signature failure or from a body that could not be parsed. -/
theorem C6_ack_policy :
    ∀ (mode : SigMode) (sp bs hm : Bool) (parse : BodyParse) (raises : Bool),
      (validate_request mode sp bs hm = true → parse = BodyParse.ok →
        (callback mode sp bs hm parse raises).statusCode = 200) ∧
      (validate_request mode sp bs hm = false → mode = SigMode.strict →
        (callback mode sp bs hm parse raises).statusCode = 401) ∧
      (validate_request mode sp bs hm = false → mode ≠ SigMode.strict →
        (callback mode sp bs hm parse raises).statusCode = 200) ∧
      ((callback mode sp bs hm parse raises).statusCode ≠ 200 →
        (mode = SigMode.strict ∧ validate_request mode sp bs hm = false) ∨
        (validate_request mode sp bs hm = true ∧ parse ≠ BodyParse.ok)) := by
  decide

/-- Claim C6, witness: the acknowledgment policy applied to a concrete
request that passes the signature gate, parses, and whose processing
raises. -/
theorem C6_ack_policy_witness :
    validate_request SigMode.strict true true true = true ∧
    (callback SigMode.strict true true true BodyParse.ok true).statusCode = 200 :=
  ⟨by decide, (C6_ack_policy SigMode.strict true true true BodyParse.ok true).1 (by decide) rfl⟩

/-- Claim C7: for every session counter state and every `N ≥ 1`, `N`
sequential sends through the automatic sequence management of
`send_sync_message_to_agent` use the consecutive, pairwise distinct values
`v, v + 1, …, v + N - 1` where `v` is the stored counter (default 1), each
step persisting `current + 1` and using the value read. -/
theorem C7_seq_consecutive (N : Nat) (c : Option Nat) (hN : 1 ≤ N) :
    seqRun N c = (List.range N).map (get_sequence_id c + ·) ∧
    (seqRun N c).Nodup ∧
    (seqRun N c).head? = some (get_sequence_id c) ∧
    (∀ c', sendSeqStep c' = (get_sequence_id c', update_sequence_id c' (get_sequence_id c' + 1))) := by
  have he : seqRun N c = (List.range N).map (get_sequence_id c + ·) := by
    cases c with
    | some v => exact seqRun_some N v
    | none => rw [seqRun_none]; exact seqRun_some N 1
  refine ⟨he, ?_, ?_, fun c' => rfl⟩
  · rw [he]
    exact List.Nodup.map (fun x y hxy => by omega) (List.nodup_range N)
  · obtain ⟨m, rfl⟩ : ∃ m, N = m + 1 := ⟨N - 1, by omega⟩
    rw [he, List.range_succ_eq_map, List.map_cons]
    rfl

/-- Claim C7, witness: three sequential sends with no stored counter use the
values 1, 2, 3. -/
theorem C7_seq_consecutive_witness :
    1 ≤ 3 ∧
    (seqRun 3 none = (List.range 3).map (get_sequence_id none + ·) ∧
      (seqRun 3 none).Nodup ∧
      (seqRun 3 none).head? = some (get_sequence_id none) ∧
      (∀ c', sendSeqStep c' =
        (get_sequence_id c', update_sequence_id c' (get_sequence_id c' + 1)))) :=
  ⟨by decide, C7_seq_consecutive 3 none (by decide)⟩

/-- Claim C8: with a populated session cache (`session_key` and `session_id`
both present for the pair), `start_agent_session` returns the cached session
id and issues zero backend "start session" calls, and a second call on the
resulting cache returns the same session id, again with zero start calls. -/
theorem C8_cached_session_reuse (k i : String) (seq : Option Nat)
    (inst a u g g' : String) (ttl : Nat) (b b' : StartOutcome) :
    start_agent_session (some inst) true true ⟨some k, some i, seq⟩ a u g ttl b =
      ⟨some i, 0, ⟨some k, some i, seq⟩⟩ ∧
    start_agent_session (some inst) true true
        (start_agent_session (some inst) true true ⟨some k, some i, seq⟩ a u g ttl b).cache
        a u g' ttl b' =
      ⟨some i, 0, ⟨some k, some i, seq⟩⟩ :=
  ⟨rfl, rfl⟩

/-- Claim C9: after the auth-error invalidation, neither credential getter
can return the invalidated token: the platform `get_access_token` on a
cleared cache returns exactly the outcome of the fresh refresh attempt, and
the backend `_get_valid_access_token` on a cleared state returns exactly the
token delivered by the fresh client-credentials refresh (or `none`). -/
theorem C9_invalidated_token_not_returned :
    (∀ (c : PCache) (now : Int) (refresh : Option PRefreshSuccess),
        (get_access_token (pInvalidate c) now refresh).1 =
          Option.map (fun r => r.access_token) refresh) ∧
    (∀ (st : SfState) (now padding : Int) (o : SfRefreshOutcome),
        (sf_get_valid_access_token (sfInvalidate st) now padding o).1 =
          sfRefreshTokenOf o) := by
  constructor
  · intro c now refresh
    cases refresh <;> rfl
  · intro st now padding o
    cases o with
    | http2xx body =>
      rcases body with ⟨ta, ti⟩
      cases ta <;> cases ti <;> rfl
    | failure => rfl

/-- Claim C10: in warn signature-verification mode, a request failing
signature validation (missing header or HMAC mismatch) is acknowledged with
200 by the early return of main.py lines 437-440: the body is never parsed
and the event-processing block is never entered. -/
theorem C10_warn_mode_drops :
    (∀ bs hm, validate_request SigMode.warn false bs hm = false) ∧
    validate_request SigMode.warn true true false = false ∧
    (∀ (sp bs hm : Bool) (parse : BodyParse) (raises : Bool),
      validate_request SigMode.warn sp bs hm = false →
      callback SigMode.warn sp bs hm parse raises = ⟨200, false, false⟩) := by
  refine ⟨by decide, by decide, ?_⟩
  decide

/-- Claim C10, witness: a warn-mode request with a missing signature header
is acknowledged with 200 and never processed. -/
theorem C10_warn_mode_drops_witness :
    validate_request SigMode.warn false true true = false ∧
    callback SigMode.warn false true true BodyParse.ok false = ⟨200, false, false⟩ :=
  ⟨by decide, C10_warn_mode_drops.2.2 false true true BodyParse.ok false (by decide)⟩

end LWBot
